import Mathlib

/-!
Verification of the debenture contract (src/debenture/src/lib.rs).

The contract persists five fields in a per-instance key-value store
(`DataKey::Maturity`, `CouponRate`, `ParValue`, `DebentureHolder`,
`CouponPaymentFrequency`), exposes `issue` to write all five, read-only
getters `maturity` and `par_value`, and `coupon_payment` which derives the
coupon owed at a timestamp from the stored state.

Embedding choices:
- Soroban `BigInt` values are modelled as `Int`; `BigInt` division truncates
  toward zero, modelled with `Int.tdiv`.
- The `u32` frequency code is modelled as `Nat`.
- `FixedBinary<32>` is modelled as `List Nat` (byte list); its default is 32
  zero bytes, matching `FixedBinary::from_array(e, [0u8; 32])`.
- The contract data store is a record with one `Option` field per `DataKey`;
  `none` models an absent key, and each getter applies the source's
  `unwrap_or(Ok(zero))` default.
- A Rust `panic!` (the `From<u32> for CouponPaymentFrequency` fallback arm)
  is modelled as `none` in an `Option` result.
- `coupon_payment` at the contract surface returns the result paired with the
  post-call store, so that frame (no-write) properties are statable.
-/

/-- The contract data store: one optional slot per `DataKey`. `none` models
an absent key. -/
structure Store where
  maturity : Option Int
  couponRate : Option Int
  parValue : Option Int
  debentureHolder : Option (List Nat)
  couponPaymentFrequency : Option Nat
deriving DecidableEq

/-- The store of a freshly deployed contract: no key present. -/
def emptyStore : Store :=
  { maturity := none, couponRate := none, parValue := none,
    debentureHolder := none, couponPaymentFrequency := none }

/-- `enum CouponPaymentFrequency`: how often the coupon payment is paid. -/
inductive CouponPaymentFrequency where
  | Annually
  | Biannually
  | Quarterly
  | Monthly
  | Weekly
  | Daily
deriving DecidableEq

/-- `CouponPaymentFrequency::into_big_int`: periods per year. -/
def CouponPaymentFrequency.into_big_int : CouponPaymentFrequency → Int
  | .Annually => 1
  | .Biannually => 2
  | .Quarterly => 4
  | .Monthly => 12
  | .Weekly => 52
  | .Daily => 365

/-- `impl From<u32> for CouponPaymentFrequency`: the wildcard arm panics
(`Invalid value for CouponPaymentFrequency`), modelled as `none`. -/
def CouponPaymentFrequency.from_u32 : Nat → Option CouponPaymentFrequency
  | 0 => some .Annually
  | 1 => some .Biannually
  | 2 => some .Quarterly
  | 3 => some .Monthly
  | 4 => some .Weekly
  | 5 => some .Daily
  | _ => none

/-- `get_maturity`: read `DataKey::Maturity`, defaulting to `BigInt::zero`. -/
def get_maturity (s : Store) : Int :=
  s.maturity.getD 0

/-- `get_par_value`: read `DataKey::ParValue`, defaulting to `BigInt::zero`. -/
def get_par_value (s : Store) : Int :=
  s.parValue.getD 0

/-- `get_coupon_rate`: read `DataKey::CouponRate`, defaulting to
`BigInt::zero`. -/
def get_coupon_rate (s : Store) : Int :=
  s.couponRate.getD 0

/-- `get_coupon_frequency`: read `DataKey::CouponPaymentFrequency`,
defaulting to `0`. -/
def get_coupon_frequency (s : Store) : Nat :=
  s.couponPaymentFrequency.getD 0

/-- `get_debenture_holder`: read `DataKey::DebentureHolder`, defaulting to
32 zero bytes. -/
def get_debenture_holder (s : Store) : List Nat :=
  s.debentureHolder.getD (List.replicate 32 0)

/-- `get_coupon_payment`: read maturity, par value, coupon rate and the
frequency code; convert the code (panicking — `none` — on an unrecognized
code, before the maturity comparison, as in the source); return zero if
`timestamp > maturity`; otherwise `(par_value * (coupon_rate /
payment_frequency)) / 100` with truncating division. -/
def get_coupon_payment (s : Store) (timestamp : Int) : Option Int :=
  let maturity := get_maturity s
  let par_value := get_par_value s
  let coupon_rate := get_coupon_rate s
  match CouponPaymentFrequency.from_u32 (get_coupon_frequency s) with
  | none => none
  | some freq =>
      let payment_frequency := freq.into_big_int
      if maturity < timestamp then
        some 0
      else
        some (Int.tdiv (par_value * Int.tdiv coupon_rate payment_frequency) 100)

/-- `DebentureContract::issue`: set all five fields in source order
(maturity, coupon rate, par value, holder, frequency). No validation is
performed on any argument. -/
def DebentureContract.issue (s : Store) (maturity coupon_rate par_value : Int)
    (coupon_payment_frequency : Nat) (debenture_holder : List Nat) : Store :=
  let s1 := { s with maturity := some maturity }
  let s2 := { s1 with couponRate := some coupon_rate }
  let s3 := { s2 with parValue := some par_value }
  let s4 := { s3 with debentureHolder := some debenture_holder }
  { s4 with couponPaymentFrequency := some coupon_payment_frequency }

/-- `DebentureContract::maturity`. -/
def DebentureContract.maturity (s : Store) : Int :=
  get_maturity s

/-- `DebentureContract::par_value`. -/
def DebentureContract.par_value (s : Store) : Int :=
  get_par_value s

/-- `DebentureContract::coupon_payment`: delegates to `get_coupon_payment`;
the body contains no `set`, so the post-call store is the input store. -/
def DebentureContract.coupon_payment (s : Store) (timestamp : Int) :
    Option (Int × Store) :=
  (get_coupon_payment s timestamp).map (fun v => (v, s))

/-- Example state from the spec's quarterly truncation example: coupon rate
750 basis points, par value 100000, frequency code 2 (`Quarterly`). -/
def quarterlyExampleStore : Store :=
  DebentureContract.issue emptyStore 10 750 100000 2 (List.replicate 32 0)

/-- Example state holding the unrecognized frequency code 99, as stored by
`issue` (which performs no validation). -/
def invalidFreqStore : Store :=
  DebentureContract.issue emptyStore 0 750 100000 99 (List.replicate 32 0)

/-- Example state from the spec's annual formula example: coupon rate 750,
par value 100000, frequency code 0 (`Annually`), maturity 315360000. -/
def annualExampleStore : Store :=
  DebentureContract.issue emptyStore 315360000 750 100000 0 (List.replicate 32 0)

/-- Characterization of `get_coupon_payment` when the stored frequency code is
recognized: the maturity test selects between zero and the formula. -/
theorem get_coupon_payment_some (s : Store) (now : Int)
    (f : CouponPaymentFrequency)
    (hf : CouponPaymentFrequency.from_u32 (get_coupon_frequency s) = some f) :
    get_coupon_payment s now =
      if get_maturity s < now then some 0
      else some (Int.tdiv (get_par_value s * Int.tdiv (get_coupon_rate s)
        f.into_big_int) 100) := by
  unfold get_coupon_payment
  rw [hf]

/-- Characterization of `get_coupon_payment` when the stored frequency code is
unrecognized: the conversion panics before the maturity test, so the call
fails at every timestamp. -/
theorem get_coupon_payment_none (s : Store) (now : Int)
    (hf : CouponPaymentFrequency.from_u32 (get_coupon_frequency s) = none) :
    get_coupon_payment s now = none := by
  unfold get_coupon_payment
  rw [hf]

/-- Claim C1: for every stored state with a recognized frequency code and
every timestamp at or before maturity, the coupon payment is
`(par_value * (coupon_rate / periods_per_year)) / 100` with truncating
division, the inner quotient truncated before the multiplication; in
particular `750 / 4` truncates to 187 and with par value 100000 the payment
is 187000. -/
theorem coupon_payment_formula :
    (∀ (s : Store) (now : Int) (f : CouponPaymentFrequency),
        CouponPaymentFrequency.from_u32 (get_coupon_frequency s) = some f →
        now ≤ get_maturity s →
        get_coupon_payment s now =
          some (Int.tdiv (get_par_value s * Int.tdiv (get_coupon_rate s)
            f.into_big_int) 100))
    ∧ Int.tdiv 750 (CouponPaymentFrequency.into_big_int .Quarterly) = 187
    ∧ get_coupon_payment quarterlyExampleStore 3 = some 187000 := by
  refine ⟨?_, by decide, by decide⟩
  intro s now f hf hnow
  rw [get_coupon_payment_some s now f hf, if_neg (not_lt.mpr hnow)]

/-- Witness for claim C1 at the quarterly example state and timestamp 3. -/
theorem coupon_payment_formula_witness :
    CouponPaymentFrequency.from_u32 (get_coupon_frequency quarterlyExampleStore) =
      some CouponPaymentFrequency.Quarterly
    ∧ (3 : Int) ≤ get_maturity quarterlyExampleStore
    ∧ get_coupon_payment quarterlyExampleStore 3 =
        some (Int.tdiv (get_par_value quarterlyExampleStore *
          Int.tdiv (get_coupon_rate quarterlyExampleStore)
            (CouponPaymentFrequency.into_big_int .Quarterly)) 100) :=
  ⟨by decide, by decide,
    coupon_payment_formula.1 quarterlyExampleStore 3 .Quarterly
      (by decide) (by decide)⟩

/-- Counterexample to claim C2 as stated: in the stored state holding the
unrecognized frequency code 99, the timestamp 1 exceeds the maturity 0, yet
`coupon_payment` fails instead of returning zero. -/
theorem coupon_payment_matured_cex :
    get_maturity invalidFreqStore < 1
    ∧ get_coupon_payment invalidFreqStore 1 ≠ some 0
    ∧ get_coupon_payment invalidFreqStore 1 = none := by decide

/-- Claim C2, amended to stored states with a recognized frequency code:
`coupon_payment` returns zero when the timestamp strictly exceeds maturity,
and at or before maturity (in particular at the maturity instant itself) it
is computed by the full formula rather than short-circuited to zero. -/
theorem coupon_payment_maturity_boundary (s : Store) (now : Int)
    (f : CouponPaymentFrequency)
    (hf : CouponPaymentFrequency.from_u32 (get_coupon_frequency s) = some f) :
    (get_maturity s < now → get_coupon_payment s now = some 0)
    ∧ (now ≤ get_maturity s →
        get_coupon_payment s now =
          some (Int.tdiv (get_par_value s * Int.tdiv (get_coupon_rate s)
            f.into_big_int) 100)) := by
  constructor
  · intro h
    rw [get_coupon_payment_some s now f hf, if_pos h]
  · intro h
    rw [get_coupon_payment_some s now f hf, if_neg (not_lt.mpr h)]

/-- Witness for claim C2: at the quarterly example state (maturity 10), the
matured branch fires at timestamp 11 and the formula branch fires at the
maturity instant 10. -/
theorem coupon_payment_maturity_boundary_witness :
    CouponPaymentFrequency.from_u32 (get_coupon_frequency quarterlyExampleStore) =
      some CouponPaymentFrequency.Quarterly
    ∧ get_coupon_payment quarterlyExampleStore 11 = some 0
    ∧ get_coupon_payment quarterlyExampleStore 10 =
        some (Int.tdiv (get_par_value quarterlyExampleStore *
          Int.tdiv (get_coupon_rate quarterlyExampleStore)
            (CouponPaymentFrequency.into_big_int .Quarterly)) 100) :=
  ⟨by decide,
    (coupon_payment_maturity_boundary quarterlyExampleStore 11 .Quarterly
      (by decide)).1 (by decide),
    (coupon_payment_maturity_boundary quarterlyExampleStore 10 .Quarterly
      (by decide)).2 (by decide)⟩

/-- Claim C3: after `issue(m, r, p, f, h)` on any prior state, `maturity()`
returns exactly `m` and `par_value()` returns exactly `p`. -/
theorem issue_roundtrip (s : Store) (m r p : Int) (f : Nat) (h : List Nat) :
    DebentureContract.maturity (DebentureContract.issue s m r p f h) = m
    ∧ DebentureContract.par_value (DebentureContract.issue s m r p f h) = p :=
  ⟨rfl, rfl⟩

/-- Counterexample to claim C4 as stated: `issue` accepts the unrecognized
frequency code 99 without failing, and the state it produces holds that bad
code, which no frequency recognizes. -/
theorem issue_invalid_code_cex :
    DebentureContract.issue emptyStore 0 750 100000 99 (List.replicate 32 0) =
      invalidFreqStore
    ∧ get_coupon_frequency invalidFreqStore = 99
    ∧ CouponPaymentFrequency.from_u32 99 = none := by decide

/-- Claim C4, amended: `issue` performs no validation of the frequency code —
an unrecognized code is accepted and stored verbatim; the failure surfaces
instead on every later `coupon_payment` read of the stored code. -/
theorem issue_invalid_code_stored (s : Store) (m r p : Int) (f : Nat)
    (h : List Nat) (hf : CouponPaymentFrequency.from_u32 f = none) :
    get_coupon_frequency (DebentureContract.issue s m r p f h) = f
    ∧ ∀ ts : Int,
        get_coupon_payment (DebentureContract.issue s m r p f h) ts = none := by
  refine ⟨rfl, fun ts => ?_⟩
  exact get_coupon_payment_none _ ts hf

/-- Witness for claim C4 with the unrecognized code 99 and timestamp 0. -/
theorem issue_invalid_code_stored_witness :
    CouponPaymentFrequency.from_u32 99 = none
    ∧ get_coupon_frequency
        (DebentureContract.issue emptyStore 0 750 100000 99
          (List.replicate 32 0)) = 99
    ∧ get_coupon_payment
        (DebentureContract.issue emptyStore 0 750 100000 99
          (List.replicate 32 0)) 0 = none :=
  ⟨by decide,
    (issue_invalid_code_stored emptyStore 0 750 100000 99
      (List.replicate 32 0) (by decide)).1,
    (issue_invalid_code_stored emptyStore 0 750 100000 99
      (List.replicate 32 0) (by decide)).2 0⟩

/-- Claim C5: whenever the stored frequency code is unrecognized, every
`coupon_payment` call fails rather than returning a value computed with a
silently substituted default frequency. -/
theorem coupon_payment_invalid_code_fails (s : Store) (ts : Int)
    (hf : CouponPaymentFrequency.from_u32 (get_coupon_frequency s) = none) :
    get_coupon_payment s ts = none :=
  get_coupon_payment_none s ts hf

/-- Witness for claim C5 at the stored state holding code 99. -/
theorem coupon_payment_invalid_code_fails_witness :
    CouponPaymentFrequency.from_u32 (get_coupon_frequency invalidFreqStore) = none
    ∧ get_coupon_payment invalidFreqStore 0 = none :=
  ⟨by decide, coupon_payment_invalid_code_fails invalidFreqStore 0 (by decide)⟩

/-- Claim C6: the recognized frequency codes and their periods-per-year
counts are exactly Annually 1, Biannually 2, Quarterly 4, Monthly 12,
Weekly 52 and Daily 365; every code outside 0..5 is unrecognized; and for a
stored state with a recognized code, the formula uses exactly that table
entry as `periods_per_year`. -/
theorem frequency_table :
    (CouponPaymentFrequency.from_u32 0 = some .Annually
      ∧ CouponPaymentFrequency.into_big_int .Annually = 1)
    ∧ (CouponPaymentFrequency.from_u32 1 = some .Biannually
      ∧ CouponPaymentFrequency.into_big_int .Biannually = 2)
    ∧ (CouponPaymentFrequency.from_u32 2 = some .Quarterly
      ∧ CouponPaymentFrequency.into_big_int .Quarterly = 4)
    ∧ (CouponPaymentFrequency.from_u32 3 = some .Monthly
      ∧ CouponPaymentFrequency.into_big_int .Monthly = 12)
    ∧ (CouponPaymentFrequency.from_u32 4 = some .Weekly
      ∧ CouponPaymentFrequency.into_big_int .Weekly = 52)
    ∧ (CouponPaymentFrequency.from_u32 5 = some .Daily
      ∧ CouponPaymentFrequency.into_big_int .Daily = 365)
    ∧ (∀ n : Nat, 6 ≤ n → CouponPaymentFrequency.from_u32 n = none)
    ∧ (∀ (s : Store) (now : Int) (f : CouponPaymentFrequency),
        CouponPaymentFrequency.from_u32 (get_coupon_frequency s) = some f →
        now ≤ get_maturity s →
        get_coupon_payment s now =
          some (Int.tdiv (get_par_value s * Int.tdiv (get_coupon_rate s)
            f.into_big_int) 100)) := by
  refine ⟨⟨rfl, rfl⟩, ⟨rfl, rfl⟩, ⟨rfl, rfl⟩, ⟨rfl, rfl⟩, ⟨rfl, rfl⟩,
    ⟨rfl, rfl⟩, ?_, ?_⟩
  · intro n hn
    obtain ⟨k, rfl⟩ : ∃ k, n = k + 6 := ⟨n - 6, by omega⟩
    rfl
  · intro s now f hf hnow
    rw [get_coupon_payment_some s now f hf, if_neg (not_lt.mpr hnow)]

/-- Witness for claim C6: code 99 is unrecognized, and the annual example
state uses the table entry 1 for `Annually` in the formula. -/
theorem frequency_table_witness :
    (6 ≤ 99 ∧ CouponPaymentFrequency.from_u32 99 = none)
    ∧ (CouponPaymentFrequency.from_u32 (get_coupon_frequency annualExampleStore) =
        some CouponPaymentFrequency.Annually
      ∧ (5 : Int) ≤ get_maturity annualExampleStore
      ∧ get_coupon_payment annualExampleStore 5 =
          some (Int.tdiv (get_par_value annualExampleStore *
            Int.tdiv (get_coupon_rate annualExampleStore)
              (CouponPaymentFrequency.into_big_int .Annually)) 100)) :=
  ⟨⟨by decide, frequency_table.2.2.2.2.2.2.1 99 (by decide)⟩,
    ⟨by decide, by decide,
      frequency_table.2.2.2.2.2.2.2 annualExampleStore 5 .Annually
        (by decide) (by decide)⟩⟩

/-- Counterexample to claim C7 as stated: with stored coupon rate 750, par
value 100000 and frequency Annually, at a timestamp at or before maturity
the payment is 750000, not 750 — the claimed value miscomputes the formula
`(100000 * (750 / 1)) / 100`. -/
theorem annual_example_cex :
    get_coupon_rate annualExampleStore = 750
    ∧ get_par_value annualExampleStore = 100000
    ∧ get_coupon_frequency annualExampleStore = 0
    ∧ (5 : Int) ≤ get_maturity annualExampleStore
    ∧ get_coupon_payment annualExampleStore 5 ≠ some 750
    ∧ get_coupon_payment annualExampleStore 5 = some 750000 := by decide

/-- Claim C7, amended: with stored coupon rate 750, par value 100000 and
frequency Annually (one period per year), for every timestamp at or before
maturity the payment is `(100000 * (750 / 1)) / 100 = 750000`. -/
theorem annual_example_payment (s : Store) (now : Int)
    (hr : get_coupon_rate s = 750) (hp : get_par_value s = 100000)
    (hf : get_coupon_frequency s = 0) (hm : now ≤ get_maturity s) :
    get_coupon_payment s now = some 750000 := by
  have hf2 : CouponPaymentFrequency.from_u32 (get_coupon_frequency s) =
      some CouponPaymentFrequency.Annually := by
    rw [hf]
    rfl
  rw [get_coupon_payment_some s now CouponPaymentFrequency.Annually hf2,
    if_neg (not_lt.mpr hm), hr, hp]
  decide

/-- Witness for claim C7 at the annual example state and timestamp 5. -/
theorem annual_example_payment_witness :
    get_coupon_rate annualExampleStore = 750
    ∧ get_par_value annualExampleStore = 100000
    ∧ get_coupon_frequency annualExampleStore = 0
    ∧ (5 : Int) ≤ get_maturity annualExampleStore
    ∧ get_coupon_payment annualExampleStore 5 = some 750000 :=
  ⟨by decide, by decide, by decide, by decide,
    annual_example_payment annualExampleStore 5
      (by decide) (by decide) (by decide) (by decide)⟩

/-- Claim C8: before any `issue`, `maturity()` and `par_value()` read as
zero, the frequency slot reads as code 0 (Annually, a recognized code), and
`coupon_payment` returns zero at every non-negative timestamp; the absence
of a stored field is never a failure. -/
theorem default_state_zero (now : Int) (h : 0 ≤ now) :
    DebentureContract.maturity emptyStore = 0
    ∧ DebentureContract.par_value emptyStore = 0
    ∧ get_coupon_frequency emptyStore = 0
    ∧ CouponPaymentFrequency.from_u32 (get_coupon_frequency emptyStore) =
        some CouponPaymentFrequency.Annually
    ∧ get_coupon_payment emptyStore now = some 0 := by
  refine ⟨rfl, rfl, rfl, rfl, ?_⟩
  rw [get_coupon_payment_some emptyStore now CouponPaymentFrequency.Annually rfl]
  rcases lt_or_eq_of_le h with h1 | h1
  · rw [if_pos (show get_maturity emptyStore < now from h1)]
  · rw [if_neg (show ¬ get_maturity emptyStore < now by rw [← h1]; decide)]
    decide

/-- Witness for claim C8 at timestamp 7. -/
theorem default_state_zero_witness :
    (0 : Int) ≤ 7
    ∧ (DebentureContract.maturity emptyStore = 0
      ∧ DebentureContract.par_value emptyStore = 0
      ∧ get_coupon_frequency emptyStore = 0
      ∧ CouponPaymentFrequency.from_u32 (get_coupon_frequency emptyStore) =
          some CouponPaymentFrequency.Annually
      ∧ get_coupon_payment emptyStore 7 = some 0) :=
  ⟨by decide, default_state_zero 7 (by decide)⟩

/-- Claim C9: `coupon_payment` writes nothing — whenever the call succeeds
the post-call store equals the pre-call store — and a second call with the
same timestamp on the store left by the first, with no intervening `issue`,
returns an identical result. -/
theorem coupon_payment_no_writes (s : Store) (now : Int) :
    (∀ v s2, DebentureContract.coupon_payment s now = some (v, s2) → s2 = s)
    ∧ (∀ v1 s1 v2 s2,
        DebentureContract.coupon_payment s now = some (v1, s1) →
        DebentureContract.coupon_payment s1 now = some (v2, s2) →
        v1 = v2 ∧ s2 = s) := by
  have key : ∀ (t : Store) (v : Int) (s2 : Store),
      DebentureContract.coupon_payment t now = some (v, s2) →
      get_coupon_payment t now = some v ∧ s2 = t := by
    intro t v s2 hcall
    unfold DebentureContract.coupon_payment at hcall
    cases hc : get_coupon_payment t now with
    | none => simp [hc] at hcall
    | some x =>
        rw [hc] at hcall
        rw [Option.map_some'] at hcall
        injection hcall with hpair
        rw [Prod.mk.injEq] at hpair
        exact ⟨by rw [hpair.1], hpair.2.symm⟩
  refine ⟨fun v s2 hcall => (key s v s2 hcall).2,
    fun v1 s1 v2 s2 h1 h2 => ?_⟩
  obtain ⟨hg1, hs1⟩ := key s v1 s1 h1
  rw [hs1] at h2
  obtain ⟨hg2, hs2⟩ := key s v2 s2 h2
  exact ⟨Option.some.inj (hg1.symm.trans hg2), hs2⟩

/-- Witness for claim C9 at the quarterly example state and timestamp 3. -/
theorem coupon_payment_no_writes_witness :
    DebentureContract.coupon_payment quarterlyExampleStore 3 =
      some (187000, quarterlyExampleStore)
    ∧ quarterlyExampleStore = quarterlyExampleStore :=
  ⟨by decide,
    (coupon_payment_no_writes quarterlyExampleStore 3).1 187000
      quarterlyExampleStore (by decide)⟩

/-- Claim C10: when the stored frequency slot is absent (defaulting to code
0) or holds one of the six recognized codes 0..5, `coupon_payment` cannot
fail: at every timestamp it returns a value and leaves the store
unchanged. -/
theorem coupon_payment_total_on_recognized (s : Store) (ts : Int)
    (hcode : s.couponPaymentFrequency = none
      ∨ ∃ n, s.couponPaymentFrequency = some n ∧ n < 6) :
    ∃ v, DebentureContract.coupon_payment s ts = some (v, s) := by
  have hn : get_coupon_frequency s < 6 := by
    rcases hcode with hc | ⟨n, hc, hlt⟩
    · simp [get_coupon_frequency, hc]
    · simpa [get_coupon_frequency, hc] using hlt
  obtain ⟨f, hf⟩ : ∃ f,
      CouponPaymentFrequency.from_u32 (get_coupon_frequency s) = some f := by
    revert hn
    generalize get_coupon_frequency s = k
    intro hn
    interval_cases k <;> exact ⟨_, rfl⟩
  refine ⟨if get_maturity s < ts then 0
    else Int.tdiv (get_par_value s * Int.tdiv (get_coupon_rate s)
      f.into_big_int) 100, ?_⟩
  unfold DebentureContract.coupon_payment
  rw [get_coupon_payment_some s ts f hf]
  by_cases hm : get_maturity s < ts
  · rw [if_pos hm, if_pos hm]
    rfl
  · rw [if_neg hm, if_neg hm]
    rfl

/-- Witness for claim C10 at the quarterly example state and timestamp 3. -/
theorem coupon_payment_total_on_recognized_witness :
    (quarterlyExampleStore.couponPaymentFrequency = none
      ∨ ∃ n, quarterlyExampleStore.couponPaymentFrequency = some n ∧ n < 6)
    ∧ ∃ v, DebentureContract.coupon_payment quarterlyExampleStore 3 =
        some (v, quarterlyExampleStore) :=
  ⟨Or.inr ⟨2, rfl, by decide⟩,
    coupon_payment_total_on_recognized quarterlyExampleStore 3
      (Or.inr ⟨2, rfl, by decide⟩)⟩
